import Mathlib

/-!
Shallow embedding of the CSV validation engine in `code/run_all.py`
(repository `replication-bundle-v1`).

The embedding follows the source file block by block:

* `read_csv`, `Row.set`, `buildRow`  — lines 48-70 (BOM-safe CSV reader);
* `require_columns`                  — lines 72-81;
* `ok_iso_date`                      — lines 83-104;
* `unique`                           — lines 106-108;
* `load_provenance_ids`              — lines 110-148;
* `warn_unknown_values`              — lines 150-159;
* `SCHEMAS`                          — lines 163-204;
* `validate_file` and its blocks     — lines 208-290;
* `validate_all`                     — lines 292-321.

Modelling conventions:

* Python strings are Lean `String`; `str.strip()` is `pyStrip`
  (strips the ASCII whitespace characters, which covers every value the
  claims and examples exercise).
* Python dicts (the per-row records) are ordered association lists
  (`Row`), built with `Row.set`, which updates the value in place for an
  existing key and appends a new key at the end — exactly the insertion
  semantics of a Python dict.
* Python `set` values are insertion-ordered duplicate-free lists built
  with `addSet` (matching `set`/`Counter` iteration up to order, which
  the code always normalises with `sorted` before rendering).
* `sorted` is `sortStr`, an insertion sort by code-point order (the
  comparison Python uses on `str`); every `sorted` call in the source is
  applied to a duplicate-free list, so any correct ascending sort is
  exact.
* `re.fullmatch` is only used with patterns of the shape `^P-\d{k}$`,
  modelled by `IdPattern` (a literal head followed by `k` ASCII
  digits); `\d` is modelled as an ASCII digit.
* f-string rendering of a list of plain strings (no quotes or escapes
  in them) is `pyListRepr`; rendering of the `(row, column)` tuple list
  is `pyPairListRepr`.
* The filesystem is explicit data: a `CsvFile` carries a `present` flag
  (for `path.exists()`) and the parsed raw cells that `csv.reader`
  would yield; `Env` carries the data files and the provenance sources.
* `datetime(y, m, d)` construction success is `pyDatetimeOk`
  (proleptic Gregorian calendar, years 1-9999 — `datetime.MINYEAR` to
  `MAXYEAR`).
-/

/-- Characters removed by Python `str.strip()` (ASCII whitespace). -/
def pySpace (c : Char) : Bool :=
  c == ' ' || c == '\t' || c == '\n' || c == '\r'

/-- Strip `pySpace` characters from both ends of a character list. -/
def stripChars (l : List Char) : List Char :=
  ((l.dropWhile pySpace).reverse.dropWhile pySpace).reverse

/-- Model of Python `str.strip()` with no arguments. -/
def pyStrip (s : String) : String := String.mk (stripChars s.toList)

/-- Model of `h.replace("﻿", "")` in the reader (line 58). -/
def removeBOM (s : String) : String :=
  String.mk (s.toList.filter (fun c => c != '﻿'))

/-- Header-name cleanup of `read_csv` line 58: BOM removal then strip. -/
def cleanHeader (h : String) : String := pyStrip (removeBOM h)

/-- Code-point comparison of character lists, as Python compares `str`. -/
def pyCharListLt : List Char → List Char → Bool
  | [], [] => false
  | [], _ :: _ => true
  | _ :: _, [] => false
  | a :: as, b :: bs =>
    if a.toNat < b.toNat then true
    else if b.toNat < a.toNat then false
    else pyCharListLt as bs

/-- Python `<` on strings. -/
def pyStrLt (a b : String) : Bool := pyCharListLt a.toList b.toList

/-- Python `<=` on strings (total, since `pyCharListLt` is a strict total order). -/
def pyStrLe (a b : String) : Bool := !(pyStrLt b a)

/-- Insert into an ascending list, keeping it ascending. -/
def insertSorted (x : String) : List String → List String
  | [] => [x]
  | y :: ys => if pyStrLe x y then x :: y :: ys else y :: insertSorted x ys

/-- Model of Python `sorted` on a list of strings (insertion sort). -/
def sortStr (l : List String) : List String := l.foldr insertSorted []

/-- Add an element to an insertion-ordered set (Python `set.add`). -/
def addSet (s : List String) (v : String) : List String :=
  if s.contains v then s else s ++ [v]

/-- Collect the distinct elements of a list in first-occurrence order
(Python `set(...)` of the list, also the key order of `Counter(...)`). -/
def toSet (l : List String) : List String := l.foldl addSet []

/-- A single-quote character, as Python `repr` uses around plain strings. -/
def sQuote : String := "\x27"

/-- Python `repr` of a plain string (one without quotes or escapes). -/
def strRepr (s : String) : String := sQuote ++ s ++ sQuote

/-- Python rendering of a list of plain strings inside an f-string. -/
def pyListRepr (l : List String) : String :=
  "[" ++ String.intercalate ", " (l.map strRepr) ++ "]"

/-- Python rendering of the `(row number, column name)` tuple list of the
whitespace-hygiene warning. -/
def pyPairListRepr (l : List (Nat × String)) : String :=
  "[" ++ String.intercalate ", " (l.map
    (fun p => "(" ++ toString p.1 ++ ", " ++ strRepr p.2 ++ ")")) ++ "]"

/-- Rendering of the first ten list elements followed by an ellipsis
marker when more exist — the truncated-finding form every list-producing
message of `validate_file` uses (lines 237, 240, 247, 254, 265, 274). -/
def trunc (l : List String) : String :=
  pyListRepr (l.take 10) ++ (if l.length > 10 then "..." else "")

/-! ## Row model (Python dicts built by the reader) -/

/-- One record: an ordered mapping from column name to cell value. -/
abbrev Row := List (String × String)

/-- Lookup, as Python `dict.get` (`none` when the key is absent). -/
def Row.get (r : Row) (k : String) : Option String :=
  (r.find? (fun p => p.1 == k)).map Prod.snd

/-- Python `row[h] = v`: replace the value of an existing key in place,
or append a fresh key at the end. -/
def Row.set : Row → String → String → Row
  | [], k, v => [(k, v)]
  | p :: t, k, v => if p.1 == k then (k, v) :: t else p :: Row.set t k v

/-- The key list of a record (Python `dict.keys()`, in insertion order). -/
def Row.keys (r : Row) : List String := r.map Prod.fst

/-- The cell assigned to header position `i` for raw row `x`
(`read_csv` lines 62-66): the stripped cell when the row is long enough,
the empty string otherwise. -/
def cellValue (x : List String) (i : Nat) : String :=
  if i < x.length then pyStrip (x.getD i "") else ""

/-- Build one record from the cleaned header list and one raw row
(`read_csv` lines 60-67). -/
def buildRow (headers : List String) (x : List String) : Row :=
  headers.enum.foldl (fun row p => row.set p.2 (cellValue x p.1)) []

/-- Translation of `read_csv` (lines 48-70) applied to the parsed cell rows of a file:
the first raw row is the header (BOM-stripped and trimmed), every later
raw row becomes one record.  An empty file gives no rows; the
`FileNotFoundError` branch is handled by callers through the `present`
flag of `CsvFile`. -/
def read_csv (raw : List (List String)) : List Row :=
  match raw with
  | [] => []
  | rawHeaders :: rest =>
    let headers := rawHeaders.map cleanHeader
    rest.map (fun x => buildRow headers x)

/-! ## Small validators -/

/-- Translation of `require_columns` (lines 72-81). -/
def require_columns (rows : List Row) (required : List String) : List String :=
  if rows = [] then ["file has no rows (after header) or is empty"]
  else
    let headers := Row.keys (rows.headD [])
    let miss := required.filter (fun c => !(headers.contains c))
    if miss = [] then []
    else ["missing required columns: " ++ String.intercalate ", " miss]

/-- ASCII-digit test, modelling `\d` of the date regex. -/
def isDig (c : Char) : Bool := 48 ≤ c.toNat && c.toNat ≤ 57

/-- Numeric value of a digit character list (`int(...)` on a digit group). -/
def digitsToNat (l : List Char) : Nat :=
  l.foldl (fun n c => 10 * n + (c.toNat - 48)) 0

/-- Shape match of `re.fullmatch(r"(\d{4})(?:-(\d{2})(?:-(\d{2}))?)?", ...)`
(line 87): a 4-digit year, optionally dash and 2-digit month, optionally
dash and 2-digit day.  Returns the captured numbers. -/
def matchDateShape : List Char → Option (Nat × Option (Nat × Option Nat))
  | [a, b, c, d] =>
    if [a, b, c, d].all isDig then some (digitsToNat [a, b, c, d], none)
    else none
  | [a, b, c, d, h1, e, f] =>
    if h1 == '-' && [a, b, c, d, e, f].all isDig then
      some (digitsToNat [a, b, c, d], some (digitsToNat [e, f], none))
    else none
  | [a, b, c, d, h1, e, f, h2, g, k] =>
    if h1 == '-' && h2 == '-' && [a, b, c, d, e, f, g, k].all isDig then
      some (digitsToNat [a, b, c, d],
            some (digitsToNat [e, f], some (digitsToNat [g, k])))
    else none
  | _ => none

/-- Gregorian leap-year rule, as Python `datetime` uses. -/
def isLeapYear (y : Nat) : Bool :=
  (y % 4 == 0 && y % 100 != 0) || y % 400 == 0

/-- Days in a month of the proleptic Gregorian calendar. -/
def daysInMonth (y m : Nat) : Nat :=
  if m == 2 then (if isLeapYear y then 29 else 28)
  else if m == 4 || m == 6 || m == 9 || m == 11 then 30
  else 31

/-- Success of the `datetime(y, m, d)` constructor (it raises `ValueError`
outside these bounds). -/
def pyDatetimeOk (y m d : Nat) : Bool :=
  decide (1 ≤ y) && decide (y ≤ 9999) && decide (1 ≤ m) && decide (m ≤ 12)
    && decide (1 ≤ d) && decide (d ≤ daysInMonth y m)

/-- Translation of `ok_iso_date` (lines 83-104): strip, shape-match, year range 1-9999,
then calendar construction for the forms that carry a month or a day. -/
def ok_iso_date (value : String) : Bool :=
  if value == "" then false
  else
    match matchDateShape (pyStrip value).toList with
    | none => false
    | some (y, md) =>
      if y < 1 || y > 9999 then false
      else
        match md with
        | none => true
        | some (m, none) => pyDatetimeOk y m 1
        | some (m, some d) => pyDatetimeOk y m d

/-- Translation of `unique` (lines 106-108): the non-empty values are pairwise distinct. -/
def unique (values : List String) : Bool :=
  let seen := values.filter (fun v => v != "")
  (toSet seen).length == seen.length

/-! ## Schemas (lines 163-204) -/

/-- Model of the `^P-\d{k}$` identifier regexes of `SCHEMAS`: the literal
head `pfx` followed by exactly `digits` ASCII digits.  `src` is the regex
source text, used when the format-violation message renders the pattern. -/
structure IdPattern where
  pfx : String
  digits : Nat
  src : String

/-- Model of `re.fullmatch` for an `IdPattern`. -/
def IdPattern.fullmatch (p : IdPattern) (v : String) : Bool :=
  let l := v.toList
  let pl := p.pfx.toList
  (l.take pl.length == pl) && ((l.drop pl.length).length == p.digits)
    && (l.drop pl.length).all isDig

/-- One `SCHEMAS` entry: the declarative rule set for one table. -/
structure Schema where
  required : List String
  id_col : Option String
  id_regex : Option IdPattern
  enums : List (String × List String)
  date_col : Option String
  recommended_scopes : List String
  unique_col : Option String

def schema_table1 : Schema :=
  ⟨["section", "promise", "administration", "reality", "sources"],
   some "t1_id", some ⟨"T1-", 3, "^T1-\\d{3}$"⟩, [], none, [], none⟩

def schema_appendix_b : Schema :=
  ⟨["domain", "claim_id", "claim_text", "test_type", "method", "sources", "notes"],
   some "claim_id", some ⟨"B-", 3, "^B-\\d{3}$"⟩,
   [("test_type", ["straw_in_the_wind", "hoop", "smoking_gun", "doubly_decisive"])],
   none, [], none⟩

def schema_appendix_c : Schema :=
  ⟨["indicator", "definition", "unit", "source_id", "frequency", "notes"],
   some "indicator_id", some ⟨"C-", 3, "^C-\\d{3}$"⟩,
   [("frequency", ["annual", "quarterly", "monthly", "weekly", "daily", "ad hoc"])],
   none, [], none⟩

def schema_appendix_e : Schema :=
  ⟨["domain", "date", "event", "source_id"],
   some "event_id", some ⟨"E-", 3, "^E-\\d{3}$"⟩,
   [("date_precision", ["day", "month", "year"])],
   some "date", [], none⟩

def schema_abbreviations : Schema :=
  ⟨["term", "expansion", "scope"], none, none, [], none,
   ["Law", "Agency", "Oversight", "Index/Metric", "NGO", "Think Tank/NGO",
    "Intl. Org", "Non-state actor", "Policy", "Program", "Law/Authority",
    "Company", "Court", "General", "Tech", "Admin/NEPA", "Agency/Grants",
    "Budget/Accounting", "Law/Program", "NGO/Media", "Presidential Action"],
   some "term"⟩

/-- The schema registry, in source order. -/
def SCHEMAS : List (String × Schema) :=
  [("table1_promises_vs_outcomes.csv", schema_table1),
   ("appendix_b_evidence_to_claim.csv", schema_appendix_b),
   ("appendix_c_indicators.csv", schema_appendix_c),
   ("appendix_e_timelines.csv", schema_appendix_e),
   ("abbreviations.csv", schema_abbreviations)]

/-! ## Environment (filesystem inputs) -/

/-- One data file: `present` models `path.exists()`, `raw` the parsed
cell rows `csv.reader` would produce. -/
structure CsvFile where
  present : Bool
  raw : List (List String)

/-- The optional provenance spreadsheet (`sources.xlsx`): `readable` is
false when opening it fails (corrupt file, missing `openpyxl`), which the
source swallows with `except Exception: pass`.  Cells are `none` when
`cell.value is None`, otherwise the string `str(value)` yields. -/
structure Xlsx where
  readable : Bool
  header : List (Option String)
  body : List (List (Option String))

/-- The filesystem as the program sees it: the registered data files and
the two optional provenance sources. -/
structure Env where
  dataFiles : String → CsvFile
  csvPresent : Bool
  csvRaw : List (List String)
  xlsxPresent : Bool
  xlsx : Xlsx

/-- Loop body of the `add_csv` inner function (lines 123-126): add the
stripped value of column `k` when it is non-empty. -/
def collectStep (k : String) (ids : List String) (r : Row) : List String :=
  let v := pyStrip ((Row.get r k).getD "")
  if v != "" then addSet ids v else ids

/-- The `add_csv` inner function of `load_provenance_ids` (lines 116-126):
read the CSV, prefer column `source_id` over `id`, and collect every
non-empty stripped value of that column. -/
def add_csv_ids (raw : List (List String)) : List String :=
  let rows := read_csv raw
  if rows = [] then []
  else
    let header_keys := Row.keys (rows.headD [])
    let key := if header_keys.contains "source_id" then some "source_id"
               else if header_keys.contains "id" then some "id" else none
    match key with
    | none => []
    | some k => rows.foldl (collectStep k) []

/-- Translation of `load_provenance_ids` (lines 110-148).  The primary CSV wins when it
exists; otherwise the spreadsheet is attempted and any read failure
yields the empty index; with neither source the index is empty. -/
def load_provenance_ids (env : Env) : List String :=
  if env.csvPresent then add_csv_ids env.csvRaw
  else if env.xlsxPresent then
    if env.xlsx.readable then
      let header := env.xlsx.header.map (fun c =>
        match c with | some s => pyStrip s | none => "")
      let idx := if header.contains "source_id" then some (header.indexOf "source_id")
                 else if header.contains "id" then some (header.indexOf "id") else none
      match idx with
      | none => []
      | some i =>
        env.xlsx.body.foldl (fun ids row =>
          match row.getD i none with
          | some v => addSet ids (pyStrip v)
          | none => ids) []
    else []
  else []

/-- Translation of `warn_unknown_values` (lines 150-159). -/
def warn_unknown_values (rows : List Row) (col : String) (allowed : List String) :
    List String :=
  let seen := toSet (rows.filterMap (fun r =>
    let v := pyStrip ((Row.get r col).getD "")
    if v != "" && !(allowed.contains v) then some v else none))
  if seen = [] then []
  else [col ++ ": found " ++ toString seen.length
        ++ " value(s) not in recommended set: " ++ pyListRepr (sortStr seen)]

/-! ## The blocks of `validate_file` (lines 208-290) -/

/-- Identifier format and uniqueness block (lines 230-240). -/
def idBlockErrors (schema : Schema) (headers : List String) (rows : List Row) :
    List String :=
  match schema.id_col, schema.id_regex with
  | some id_col, some id_re =>
    if headers.contains id_col then
      let ids := rows.map (fun r => pyStrip ((Row.get r id_col).getD ""))
      let bad := ids.filter (fun v => v != "" && !(id_re.fullmatch v))
      let fmtErrs :=
        if bad = [] then []
        else [id_col ++ " format violations (expected " ++ id_re.src ++ "): "
              ++ trunc (sortStr (toSet bad))]
      let dupErrs :=
        if unique ids then []
        else
          let nonEmpty := ids.filter (fun v => v != "")
          let dupes := (toSet nonEmpty).filter (fun v => nonEmpty.count v > 1)
          [id_col ++ " duplicate values: " ++ trunc (sortStr dupes)]
      fmtErrs ++ dupErrs
    else []
  | _, _ => []

/-- Enumerated-columns block (lines 242-247), hard errors. -/
def enumBlockErrors (schema : Schema) (headers : List String) (rows : List Row) :
    List String :=
  (schema.enums.map (fun ca =>
    if headers.contains ca.1 then
      let invalid := sortStr (toSet (rows.filterMap (fun r =>
        let raw := (Row.get r ca.1).getD ""
        if raw != "" && !(ca.2.contains (pyStrip raw)) then some (pyStrip raw)
        else none)))
      if invalid = [] then []
      else [ca.1 ++ ": " ++ toString invalid.length ++ " value(s) not in "
            ++ pyListRepr (sortStr ca.2) ++ " — " ++ trunc invalid]
    else [])).flatten

/-- Date-column block (lines 249-254). -/
def dateBlockErrors (schema : Schema) (rows : List Row) : List String :=
  match schema.date_col with
  | none => []
  | some date_col =>
    let bad_dates := sortStr (toSet (rows.filterMap (fun r =>
      let raw := (Row.get r date_col).getD ""
      if raw != "" && !(ok_iso_date raw) then some (pyStrip raw) else none)))
    if bad_dates = [] then []
    else [date_col ++ ": invalid ISO date(s) (YYYY[-MM[-DD]]): " ++ trunc bad_dates]

/-- Abbreviations-only soft checks (lines 256-265): recommended scope
values and duplicate terms, both warnings. -/
def abbrevBlockWarnings (name : String) (schema : Schema) (headers : List String)
    (rows : List Row) : List String :=
  if name == "abbreviations.csv" then
    let scopeW := if headers.contains "scope" then
        warn_unknown_values rows "scope" schema.recommended_scopes
      else []
    let uniqW :=
      match schema.unique_col with
      | some ucol =>
        if headers.contains ucol then
          let terms := rows.filterMap (fun r =>
            let v := pyStrip ((Row.get r ucol).getD "")
            if v != "" then some v else none)
          let dupes := (toSet terms).filter (fun v => terms.count v > 1)
          if dupes = [] then []
          else [ucol ++ ": duplicate values: " ++ trunc (sortStr dupes)]
        else []
      | none => []
    scopeW ++ uniqW
  else []

/-- The deduplicated sorted list of `source_id` values that are non-empty
and absent from the Identifier Index (line 271-272). -/
def crossMissing (rows : List Row) (prov_ids : List String) : List String :=
  sortStr (toSet (rows.filterMap (fun r =>
    let v := pyStrip ((Row.get r "source_id").getD "")
    if v != "" && !(prov_ids.contains v) then some v else none)))

/-- Cross-file provenance block (lines 267-275): the finding list (empty
or a single message); `validate_file` appends it to the errors under
strict mode and to the warnings otherwise. -/
def crossRefMsgs (name : String) (headers : List String) (rows : List Row)
    (prov_ids : List String) : List String :=
  if (name == "appendix_c_indicators.csv" || name == "appendix_e_timelines.csv")
      && !(prov_ids = []) then
    if headers.contains "source_id" then
      let missing := crossMissing rows prov_ids
      if missing = [] then []
      else ["source_id: " ++ toString missing.length
            ++ " value(s) not found in provenance sources: " ++ trunc missing]
    else []
  else []

/-- Whitespace-hygiene scan (lines 278-286): walk the records in order,
numbering them from 2 (the header counts as row 1), collect the
`(row number, column name)` of every cell whose stored value changes
under `strip()`, and stop as soon as 10 offenders are collected (the
guard on the accumulator length models the two `break` statements). -/
def hygieneCellStep (i : Nat) (a : List (Nat × String)) (kv : String × String) :
    List (Nat × String) :=
  if a.length ≥ 10 then a
  else if kv.2 != pyStrip kv.2 then a ++ [(i, kv.1)] else a

def hygieneScan (rows : List Row) : List (Nat × String) :=
  (rows.enumFrom 2).foldl (fun acc ir => ir.2.foldl (hygieneCellStep ir.1) acc) []

/-- Hygiene warning rendering (lines 287-288). -/
def hygieneBlockWarnings (rows : List Row) : List String :=
  let trailing := hygieneScan rows
  if trailing = [] then []
  else ["trailing whitespace in " ++ toString trailing.length
        ++ " cell(s) (first 10 shown): " ++ pyPairListRepr trailing]

/-- The checks of `validate_file` that run after the fatal short-circuits
(lines 226-290), assembled in source order: errors are blank-header,
identifier, enum, date, then the cross-reference message under strict
mode; warnings are the abbreviations extras, the cross-reference message
outside strict mode, then hygiene. -/
def mainChecks (name : String) (schema : Schema) (rows : List Row) (strict : Bool)
    (prov_ids : List String) : List String × List String :=
  let headers := Row.keys (rows.headD [])
  let blankErrs := if headers.contains "" then ["blank column name in header"] else []
  let crossMsgs := crossRefMsgs name headers rows prov_ids
  (blankErrs ++ idBlockErrors schema headers rows ++ enumBlockErrors schema headers rows
     ++ dateBlockErrors schema rows ++ (if strict then crossMsgs else []),
   abbrevBlockWarnings name schema headers rows ++ (if strict then [] else crossMsgs)
     ++ hygieneBlockWarnings rows)

/-- Rendering of `DATA / name` in the missing-file message (line 214);
the absolute prefix of the real path is abstracted away. -/
def dataPath (name : String) : String := "data/" ++ name

/-- Translation of `validate_file` (lines 208-290).  The schema argument stands for the
`SCHEMAS[name]` lookup of line 220 (callers pass the registered entry),
and `file` stands for the file at `DATA / name`. -/
def validate_file (name : String) (schema : Schema) (file : CsvFile) (strict : Bool)
    (prov_ids : List String) : List String × List String :=
  if file.present = false then (["missing file: " ++ dataPath name], [])
  else
    let rows := read_csv file.raw
    if rows = [] then (["file has no rows (or is empty)"], [])
    else
      let reqErrs := require_columns rows schema.required
      if reqErrs = [] then mainChecks name schema rows strict prov_ids
      else (reqErrs, [])

/-- Translation of `validate_all` (lines 292-321): run every registered table, and
return the exit code — `1` as soon as any table has a non-empty error
list, `0` otherwise.  (`main` passes this value to `sys.exit`.) -/
def validate_all (env : Env) (strict : Bool) : Nat :=
  let prov_ids := load_provenance_ids env
  SCHEMAS.foldl (fun code entry =>
    if (validate_file entry.1 entry.2 (env.dataFiles entry.1) strict prov_ids).1 = []
    then code else 1) 0

/-! ## Spec-side definitions (used only to state claims) -/

/-- Modelled from the spec: the calendar-date shape of section 4.4 — a
4-digit year, a year-dash-2-digit-month, or a
year-dash-2-digit-month-dash-2-digit-day, denoting a real calendar date
(month 1-12, day valid for that month including leap-year February),
with the year in 1-9999; anything else is rejected.  Stated on the
string itself, with no whitespace allowance. -/
def specDateValid (v : String) : Bool :=
  match matchDateShape v.toList with
  | none => false
  | some (y, none) => decide (1 ≤ y) && decide (y ≤ 9999)
  | some (y, some (m, none)) =>
    decide (1 ≤ y) && decide (y ≤ 9999) && decide (1 ≤ m) && decide (m ≤ 12)
  | some (y, some (m, some d)) =>
    decide (1 ≤ y) && decide (y ≤ 9999) && decide (1 ≤ m) && decide (m ≤ 12)
      && decide (1 ≤ d) && decide (d ≤ daysInMonth y m)

/-- Modelled from the spec: the full list of whitespace offenders — for
every record (numbered from 2, the header being row 1) and every cell in
record order, the `(row number, column name)` pairs of the cells whose
stored value changes under `strip()`.  `hygieneScan` is claimed to be
the first 10 of these. -/
def rowOffenders (i : Nat) (r : Row) : List (Nat × String) :=
  (r.filter (fun kv => kv.2 != pyStrip kv.2)).map (fun kv => (i, kv.1))

def hygieneOffenders (rows : List Row) : List (Nat × String) :=
  ((rows.enumFrom 2).map (fun ir => rowOffenders ir.1 ir.2)).flatten

/-- First-occurrence deduplication of a key list: the key list a Python
dict ends up with after inserting the given keys in order. -/
def dedupKeys (l : List String) : List String :=
  l.foldl (fun acc h => if acc.contains h then acc else acc ++ [h]) []

/-! ## General lemmas about the embedding -/

theorem dropWhile_head_false {p : Char → Bool} {l : List Char} {a : Char} {t : List Char}
    (h : l.dropWhile p = a :: t) : p a = false := by
  have := List.head_dropWhile_not p (l := l) (w := by simp [h])
  simpa [h] using this

theorem dropWhile_dropWhile (p : Char → Bool) (l : List Char) :
    (l.dropWhile p).dropWhile p = l.dropWhile p := by
  cases h : l.dropWhile p with
  | nil => simp
  | cons a t =>
    have hpa : p a = false := dropWhile_head_false h
    simp [List.dropWhile_cons, hpa]

theorem stripChars_append_rest (l : List Char) :
    stripChars l ++ ((l.dropWhile pySpace).reverse.takeWhile pySpace).reverse
      = l.dropWhile pySpace := by
  unfold stripChars
  rw [← List.reverse_append, List.takeWhile_append_dropWhile, List.reverse_reverse]

theorem dropWhile_stripChars (l : List Char) :
    (stripChars l).dropWhile pySpace = stripChars l := by
  cases h : stripChars l with
  | nil => simp
  | cons a t =>
    have e := stripChars_append_rest l
    rw [h] at e
    have hpa : pySpace a = false := by
      refine dropWhile_head_false (l := l)
        (t := t ++ ((l.dropWhile pySpace).reverse.takeWhile pySpace).reverse) ?_
      simpa using e.symm
    simp [List.dropWhile_cons, hpa]

theorem stripChars_idem (l : List Char) :
    stripChars (stripChars l) = stripChars l := by
  conv_lhs => rw [stripChars]
  rw [dropWhile_stripChars]
  have hrev : (stripChars l).reverse = ((l.dropWhile pySpace).reverse).dropWhile pySpace := by
    unfold stripChars; rw [List.reverse_reverse]
  rw [hrev, dropWhile_dropWhile, ← hrev]
  exact List.reverse_reverse _

theorem toList_mk (l : List Char) : (String.mk l).toList = l := rfl

theorem pyStrip_idem (s : String) : pyStrip (pyStrip s) = pyStrip s := by
  unfold pyStrip
  rw [toList_mk, stripChars_idem]

theorem pyStrip_empty : pyStrip "" = "" := rfl

theorem cellValue_stripped (x : List String) (i : Nat) :
    pyStrip (cellValue x i) = cellValue x i := by
  unfold cellValue
  split
  · exact pyStrip_idem _
  · exact pyStrip_empty

theorem cleanHeader_stripped (s : String) :
    pyStrip (cleanHeader s) = cleanHeader s := pyStrip_idem _

/-! Lemmas about `Row.set` and the record-building fold. -/

theorem Row.get_set_self (r : Row) (k v : String) : (r.set k v).get k = some v := by
  induction r with
  | nil => simp [Row.set, Row.get, List.find?]
  | cons p t ih =>
    by_cases h : p.1 = k
    · simp [Row.set, h, Row.get, List.find?]
    · have hb : (p.1 == k) = false := by simpa using h
      simp only [Row.set, hb, if_false, Row.get, List.find?, hb, cond_false] at ih ⊢
      -- fall back to the inductive hypothesis on the tail
      simpa [Row.get] using ih

theorem Row.get_set_ne (r : Row) (k v q : String) (h : k ≠ q) :
    (r.set k v).get q = r.get q := by
  induction r with
  | nil =>
    have hb : (k == q) = false := by simpa using h
    simp [Row.set, Row.get, List.find?, hb]
  | cons p t ih =>
    by_cases hp : p.1 = k
    · have hb : (p.1 == k) = true := by simpa using hp
      have hq : (p.1 == q) = false := by simp [hp]; exact h
      have hkq : (k == q) = false := by simpa using h
      simp [Row.set, hb, Row.get, List.find?, hkq, hq]
    · have hb : (p.1 == k) = false := by simpa using hp
      by_cases hpq : p.1 = q
      · have hq : (p.1 == q) = true := by simpa using hpq
        simp [Row.set, hb, Row.get, List.find?, hq]
      · have hq : (p.1 == q) = false := by simpa using hpq
        simp only [Row.set, hb, if_false, Row.get, List.find?, hq, cond_false]
        simpa [Row.get] using ih

theorem Row.keys_set (r : Row) (k v : String) :
    (r.set k v).keys = if r.keys.contains k then r.keys else r.keys ++ [k] := by
  induction r with
  | nil => simp [Row.set, Row.keys]
  | cons p t ih =>
    by_cases h : p.1 = k
    · have hb : (p.1 == k) = true := by simpa using h
      simp [Row.set, hb, Row.keys, h]
    · have hb : (p.1 == k) = false := by simpa using h
      have hkp : (k == p.1) = false := by simpa using (Ne.symm h)
      simp only [Row.set, hb, Bool.false_eq_true, if_false]
      simp only [Row.keys, List.map_cons] at ih ⊢
      rw [ih]
      simp only [List.contains_cons, hkp, Bool.false_or]
      split <;> rfl

theorem Row.mem_set (r : Row) (k v : String) (kv : String × String)
    (h : kv ∈ r.set k v) : kv = (k, v) ∨ kv ∈ r := by
  induction r with
  | nil => simpa [Row.set] using h
  | cons p t ih =>
    by_cases hp : p.1 = k
    · have hb : (p.1 == k) = true := by simpa using hp
      simp [Row.set, hb] at h
      rcases h with h1 | h1
      · exact Or.inl (by simp [h1])
      · exact Or.inr (List.mem_cons_of_mem _ h1)
    · have hb : (p.1 == k) = false := by simpa using hp
      simp [Row.set, hb] at h
      rcases h with h1 | h1
      · exact Or.inr (by simp [h1])
      · rcases ih h1 with h2 | h2
        · exact Or.inl h2
        · exact Or.inr (List.mem_cons_of_mem _ h2)

/-! Lemmas about the header-indexed fold of `buildRow`. -/

theorem mem_enumFrom_snd {α : Type} {l : List α} :
    ∀ {n : Nat} {p : Nat × α}, p ∈ l.enumFrom n → p.2 ∈ l := by
  induction l with
  | nil => intro n p h; simp [List.enumFrom] at h
  | cons a t ih =>
    intro n p h
    simp only [List.enumFrom, List.mem_cons] at h
    rcases h with h | h
    · simp [h]
    · exact List.mem_cons_of_mem _ (ih h)

theorem get_fold_set_of_not_mem (g : Nat × String → String) (q : String) :
    ∀ (pairs : List (Nat × String)) (acc : Row), (∀ p ∈ pairs, p.2 ≠ q) →
    (pairs.foldl (fun row p => row.set p.2 (g p)) acc).get q = acc.get q := by
  intro pairs
  induction pairs with
  | nil => intro acc _; rfl
  | cons p t ih =>
    intro acc h
    simp only [List.foldl_cons]
    rw [ih _ (fun x hx => h x (List.mem_cons_of_mem _ hx))]
    exact Row.get_set_ne _ _ _ _ (h p (List.mem_cons_self _ _))

theorem get_fold_set_end (x : List String) :
    ∀ (headers : List String) (n : Nat) (acc : Row) (h : String),
    (∃ i, ∃ hi : i < headers.length, headers.get ⟨i, hi⟩ = h ∧ x.length ≤ n + i) →
    ((headers.enumFrom n).foldl (fun row p => row.set p.2 (cellValue x p.1)) acc).get h
      = some "" := by
  intro headers
  induction headers with
  | nil =>
    intro n acc h hex
    obtain ⟨i, hi, -⟩ := hex
    exact absurd hi (by simp)
  | cons hd t ih =>
    intro n acc h hex
    obtain ⟨i, hi, hget, hlen⟩ := hex
    simp only [List.enumFrom, List.foldl_cons]
    cases i with
    | succ j =>
      refine ih (n + 1) _ h ⟨j, by simpa using hi, by simpa using hget, by omega⟩
    | zero =>
      have hhd : hd = h := by simpa using hget
      by_cases hmem : h ∈ t
      · obtain ⟨⟨j, hj⟩, hgj⟩ := List.mem_iff_get.mp hmem
        refine ih (n + 1) _ h ⟨j, hj, hgj, by omega⟩
      · rw [get_fold_set_of_not_mem]
        · rw [hhd]
          rw [Row.get_set_self]
          have hcv : cellValue x n = "" := by
            unfold cellValue
            rw [if_neg (by omega)]
          rw [hcv]
        · intro p hp hpq
          exact hmem (hpq ▸ mem_enumFrom_snd hp)

theorem keys_fold_set (g : Nat × String → String) :
    ∀ (pairs : List (Nat × String)) (acc : Row),
    (pairs.foldl (fun row p => row.set p.2 (g p)) acc).keys
      = pairs.foldl (fun ks p => if ks.contains p.2 then ks else ks ++ [p.2]) acc.keys := by
  intro pairs
  induction pairs with
  | nil => intro acc; rfl
  | cons p t ih =>
    intro acc
    simp only [List.foldl_cons]
    rw [ih, Row.keys_set]

theorem foldl_enumFrom_snd {β : Type} (F : β → String → β) :
    ∀ (l : List String) (n : Nat) (b : β),
    (l.enumFrom n).foldl (fun acc p => F acc p.2) b = l.foldl F b := by
  intro l
  induction l with
  | nil => intro n b; rfl
  | cons a t ih =>
    intro n b
    simp only [List.enumFrom, List.foldl_cons]
    exact ih (n + 1) _

theorem keys_buildRow (headers x : List String) :
    (buildRow headers x).keys = dedupKeys headers := by
  unfold buildRow dedupKeys
  rw [show headers.enum = headers.enumFrom 0 from rfl]
  rw [keys_fold_set (fun p => cellValue x p.1)]
  rw [show Row.keys ([] : Row) = ([] : List String) from rfl]
  exact foldl_enumFrom_snd (fun ks h => if ks.contains h then ks else ks ++ [h]) headers 0 []

theorem mem_fold_set (g : Nat × String → String) :
    ∀ (pairs : List (Nat × String)) (acc : Row) (kv : String × String),
    kv ∈ pairs.foldl (fun row p => row.set p.2 (g p)) acc →
    (∃ p ∈ pairs, kv = (p.2, g p)) ∨ kv ∈ acc := by
  intro pairs
  induction pairs with
  | nil => intro acc kv h; exact Or.inr h
  | cons p t ih =>
    intro acc kv h
    simp only [List.foldl_cons] at h
    rcases ih _ kv h with h1 | h1
    · obtain ⟨q, hq, hkv⟩ := h1
      exact Or.inl ⟨q, List.mem_cons_of_mem _ hq, hkv⟩
    · rcases Row.mem_set _ _ _ _ h1 with h2 | h2
      · exact Or.inl ⟨p, List.mem_cons_self _ _, h2⟩
      · exact Or.inr h2

theorem mem_buildRow (headers x : List String) (kv : String × String)
    (h : kv ∈ buildRow headers x) :
    ∃ p ∈ headers.enum, kv = (p.2, cellValue x p.1) := by
  rcases mem_fold_set (fun p => cellValue x p.1) _ _ kv h with h1 | h1
  · exact h1
  · simp at h1

/-- Every key and every value of every record the reader produces is a
fixed point of `pyStrip` (the reader trims both). -/
theorem read_csv_strip (raw : List (List String)) :
    ∀ r ∈ read_csv raw, ∀ kv ∈ r, pyStrip kv.1 = kv.1 ∧ pyStrip kv.2 = kv.2 := by
  intro r hr kv hkv
  match raw with
  | [] => simp [read_csv] at hr
  | rawHeaders :: rest =>
    simp only [read_csv, List.mem_map] at hr
    obtain ⟨x, -, hx⟩ := hr
    obtain ⟨p, hp, hkv2⟩ := mem_buildRow _ x kv (hx ▸ hkv)
    have h1 : p.2 ∈ rawHeaders.map cleanHeader :=
      mem_enumFrom_snd (l := rawHeaders.map cleanHeader) hp
    obtain ⟨s, -, hs⟩ := List.mem_map.mp h1
    subst hkv2
    exact ⟨by rw [← hs]; exact cleanHeader_stripped s, cellValue_stripped x p.1⟩

/-! Lemmas about the set, sort and collection helpers. -/

theorem mem_addSet (s : List String) (v w : String) :
    w ∈ addSet s v ↔ w ∈ s ∨ w = v := by
  unfold addSet
  by_cases h : s.contains v = true
  · rw [if_pos h]
    have hv : v ∈ s := by simpa using h
    constructor
    · exact Or.inl
    · rintro (h2 | rfl)
      · exact h2
      · exact hv
  · rw [if_neg h]
    simp [List.mem_append]

theorem mem_foldl_addSet :
    ∀ (l acc : List String) (w : String), w ∈ l.foldl addSet acc ↔ w ∈ acc ∨ w ∈ l := by
  intro l
  induction l with
  | nil => intro acc w; simp
  | cons a t ih =>
    intro acc w
    simp only [List.foldl_cons]
    rw [ih, mem_addSet]
    simp only [List.mem_cons]
    tauto

theorem mem_toSet (l : List String) (w : String) : w ∈ toSet l ↔ w ∈ l := by
  unfold toSet
  rw [mem_foldl_addSet]
  simp

theorem length_insertSorted (x : String) :
    ∀ l : List String, (insertSorted x l).length = l.length + 1 := by
  intro l
  induction l with
  | nil => rfl
  | cons y t ih =>
    unfold insertSorted
    split
    · simp
    · simp [ih]

theorem length_sortStr (l : List String) : (sortStr l).length = l.length := by
  unfold sortStr
  induction l with
  | nil => rfl
  | cons a t ih => simp [List.foldr_cons, length_insertSorted, ih]

theorem sortStr_ne_nil (l : List String) (h : l ≠ []) : sortStr l ≠ [] := by
  intro hs
  have := length_sortStr l
  rw [hs] at this
  exact h (List.length_eq_zero.mp this.symm)

theorem toSet_ne_nil (l : List String) (w : String) (h : w ∈ l) : toSet l ≠ [] :=
  List.ne_nil_of_mem ((mem_toSet l w).mpr h)

/-- Membership in the id-collecting fold of `add_csv_ids` (lines 123-126). -/
theorem mem_collect (k : String) :
    ∀ (rows : List Row) (init : List String) (w : String),
    w ∈ rows.foldl (collectStep k) init
    ↔ w ∈ init ∨ (w ≠ "" ∧ ∃ r ∈ rows, pyStrip ((Row.get r k).getD "") = w) := by
  intro rows
  induction rows with
  | nil => intro init w; simp
  | cons r t ih =>
    intro init w
    simp only [List.foldl_cons]
    by_cases hv : pyStrip ((Row.get r k).getD "") = ""
    · have hstep : collectStep k init r = init := by
        unfold collectStep
        simp [hv]
      rw [hstep, ih]
      simp only [List.mem_cons]
      constructor
      · rintro (h | ⟨hw, x, hx, hfx⟩)
        · exact Or.inl h
        · exact Or.inr ⟨hw, x, Or.inr hx, hfx⟩
      · rintro (h | ⟨hw, x, hx, hfx⟩)
        · exact Or.inl h
        · rcases hx with rfl | hx2
          · exact absurd (hfx ▸ hv) hw
          · exact Or.inr ⟨hw, x, hx2, hfx⟩
    · have hb : (pyStrip ((Row.get r k).getD "") != "") = true := by simpa using hv
      have hstep : collectStep k init r = addSet init (pyStrip ((Row.get r k).getD "")) := by
        unfold collectStep
        rw [if_pos hb]
      rw [hstep, ih, mem_addSet]
      simp only [List.mem_cons]
      constructor
      · rintro ((h | h) | ⟨hw, x, hx, hfx⟩)
        · exact Or.inl h
        · exact Or.inr ⟨by rw [h]; exact hv, r, Or.inl rfl, h.symm⟩
        · exact Or.inr ⟨hw, x, Or.inr hx, hfx⟩
      · rintro (h | ⟨hw, x, hx, hfx⟩)
        · exact Or.inl (Or.inl h)
        · rcases hx with rfl | hx2
          · exact Or.inl (Or.inr hfx.symm)
          · exact Or.inr ⟨hw, x, hx2, hfx⟩

/-! Lemmas about the whitespace-hygiene scan. -/

theorem hygiene_row_fold (i : Nat) :
    ∀ (r : Row) (acc : List (Nat × String)), acc.length ≤ 10 →
    r.foldl (hygieneCellStep i) acc = acc ++ (rowOffenders i r).take (10 - acc.length) := by
  intro r
  induction r with
  | nil => intro acc _; simp [rowOffenders]
  | cons kv t ih =>
    intro acc hle
    simp only [List.foldl_cons]
    by_cases h10 : acc.length ≥ 10
    · have hstep : hygieneCellStep i acc kv = acc := by
        unfold hygieneCellStep
        rw [if_pos h10]
      rw [hstep, ih acc hle]
      have hz : 10 - acc.length = 0 := by omega
      rw [hz]
      simp
    · by_cases hkv : (kv.2 != pyStrip kv.2) = true
      · have hstep : hygieneCellStep i acc kv = acc ++ [(i, kv.1)] := by
          unfold hygieneCellStep
          rw [if_neg h10, if_pos hkv]
        rw [hstep, ih _ (by simp; omega)]
        have hoff : rowOffenders i (kv :: t) = (i, kv.1) :: rowOffenders i t := by
          unfold rowOffenders
          simp [List.filter_cons, hkv]
        rw [hoff]
        have hsucc : 10 - acc.length = (10 - (acc ++ [(i, kv.1)]).length) + 1 := by
          simp; omega
        rw [hsucc, List.take_succ_cons]
        simp
      · have hstep : hygieneCellStep i acc kv = acc := by
          unfold hygieneCellStep
          rw [if_neg h10, if_neg (by simpa using hkv)]
        rw [hstep, ih acc hle]
        have hoff : rowOffenders i (kv :: t) = rowOffenders i t := by
          have hfalse : (kv.2 != pyStrip kv.2) = false := by simpa using hkv
          unfold rowOffenders
          simp [List.filter_cons, hfalse]
        rw [hoff]

theorem hygiene_outer_fold :
    ∀ (l : List (Nat × Row)) (acc : List (Nat × String)), acc.length ≤ 10 →
    l.foldl (fun acc ir => ir.2.foldl (hygieneCellStep ir.1) acc) acc
      = acc ++ ((l.map (fun ir => rowOffenders ir.1 ir.2)).flatten).take (10 - acc.length) := by
  intro l
  induction l with
  | nil => intro acc _; simp
  | cons ir t ih =>
    intro acc hle
    simp only [List.foldl_cons]
    rw [hygiene_row_fold ir.1 ir.2 acc hle]
    have hlen : (acc ++ (rowOffenders ir.1 ir.2).take (10 - acc.length)).length
        = acc.length + min (10 - acc.length) (rowOffenders ir.1 ir.2).length := by
      simp [List.length_take]
    rw [ih _ (by rw [hlen]; omega)]
    rw [List.map_cons, List.flatten_cons, List.take_append_eq_append_take]
    rw [List.append_assoc]
    have harith : 10 - (acc ++ (rowOffenders ir.1 ir.2).take (10 - acc.length)).length
        = 10 - acc.length - (rowOffenders ir.1 ir.2).length := by
      rw [hlen]; omega
    rw [harith]

/-- The hygiene scan is exactly the first 10 whitespace offenders. -/
theorem hygieneScan_eq_take (rows : List Row) :
    hygieneScan rows = (hygieneOffenders rows).take 10 := by
  unfold hygieneScan hygieneOffenders
  rw [hygiene_outer_fold _ [] (by simp)]
  simp

theorem flatten_nil_of_all {α : Type} :
    ∀ (L : List (List α)), (∀ y ∈ L, y = []) → L.flatten = [] := by
  intro L
  induction L with
  | nil => intro _; rfl
  | cons a t ih =>
    intro h
    rw [List.flatten_cons, h a (List.mem_cons_self _ _), ih (fun y hy => h y (List.mem_cons_of_mem _ hy))]
    rfl

/-- On reader-produced rows there are no whitespace offenders at all. -/
theorem hygieneOffenders_read_csv (raw : List (List String)) :
    hygieneOffenders (read_csv raw) = [] := by
  unfold hygieneOffenders
  apply flatten_nil_of_all
  intro y hy
  obtain ⟨ir, hir, hmap⟩ := List.mem_map.mp hy
  have hrow : ir.2 ∈ read_csv raw := mem_enumFrom_snd hir
  rw [← hmap]
  unfold rowOffenders
  rw [List.filter_eq_nil_iff.mpr ?_]
  · rfl
  · intro kv hkv
    have := (read_csv_strip raw ir.2 hrow kv hkv).2
    simp [this]

/-- The hygiene scan never fires on reader-produced rows. -/
theorem hygieneScan_read_csv (raw : List (List String)) :
    hygieneScan (read_csv raw) = [] := by
  rw [hygieneScan_eq_take, hygieneOffenders_read_csv]
  rfl

/-- Hence `validate_file` never renders the hygiene warning. -/
theorem hygieneBlockWarnings_read_csv (raw : List (List String)) :
    hygieneBlockWarnings (read_csv raw) = [] := by
  unfold hygieneBlockWarnings
  rw [hygieneScan_read_csv]
  rfl

/-! Exit-code fold of `validate_all`. -/

theorem foldl_exit {α : Type} (g : α → List String) :
    ∀ (l : List α) (c : Nat),
    (l.foldl (fun code x => if g x = [] then code else 1) c = 0)
      ↔ (c = 0 ∧ ∀ x ∈ l, g x = []) := by
  intro l
  induction l with
  | nil => intro c; simp
  | cons x t ih =>
    intro c
    simp only [List.foldl_cons]
    rw [ih]
    by_cases h : g x = []
    · simp [h]
    · rw [if_neg h]
      constructor
      · rintro ⟨h10, -⟩
        exact absurd h10 one_ne_zero
      · rintro ⟨-, hall⟩
        exact absurd (hall x (List.mem_cons_self _ _)) h

/-! The calendar-date validator against the spec-side shape predicate. -/

theorem one_le_daysInMonth (y m : Nat) : 1 ≤ daysInMonth y m := by
  unfold daysInMonth
  split
  · split <;> omega
  · split <;> omega

/-- Theorem: `ok_iso_date` agrees with the spec-side date predicate evaluated at
the stripped input: the source strips the value before matching. -/
theorem ok_iso_date_eq_spec (v : String) :
    ok_iso_date v = specDateValid (pyStrip v) := by
  by_cases hv : v = ""
  · subst hv; rfl
  · have hb : (v == "") = false := by simpa using hv
    unfold ok_iso_date specDateValid
    simp only [hb, Bool.false_eq_true, if_false]
    cases h : matchDateShape (pyStrip v).toList with
    | none => rfl
    | some yd =>
      obtain ⟨y, md⟩ := yd
      rcases md with _ | ⟨m, dd⟩
      · dsimp only
        by_cases hy : (y < 1 || y > 9999) = true
        · rw [if_pos hy]
          have hy2 : y < 1 ∨ y > 9999 := by simpa using hy
          symm
          rcases hy2 with hy2 | hy2
          · have e : decide (1 ≤ y) = false := by simp; omega
            simp [e]
          · have e : decide (y ≤ 9999) = false := by simp; omega
            simp [e]
        · rw [if_neg hy]
          have hy2 : ¬(y < 1 ∨ y > 9999) := fun hc => hy (by simpa using hc)
          have e1 : decide (1 ≤ y) = true := by simp; omega
          have e2 : decide (y ≤ 9999) = true := by simp; omega
          simp [e1, e2]
      · rcases dd with _ | d
        · dsimp only
          by_cases hy : (y < 1 || y > 9999) = true
          · rw [if_pos hy]
            have hy2 : y < 1 ∨ y > 9999 := by simpa using hy
            symm
            rcases hy2 with hy2 | hy2
            · have e : decide (1 ≤ y) = false := by simp; omega
              simp [e]
            · have e : decide (y ≤ 9999) = false := by simp; omega
              simp [e]
          · rw [if_neg hy]
            have hy2 : ¬(y < 1 ∨ y > 9999) := fun hc => hy (by simpa using hc)
            have e1 : decide (1 ≤ y) = true := by simp; omega
            have e2 : decide (y ≤ 9999) = true := by simp; omega
            have e3 : decide (1 ≤ daysInMonth y m) = true := by
              simp [one_le_daysInMonth y m]
            simp [pyDatetimeOk, e1, e2, e3]
        · dsimp only
          by_cases hy : (y < 1 || y > 9999) = true
          · rw [if_pos hy]
            have hy2 : y < 1 ∨ y > 9999 := by simpa using hy
            symm
            rcases hy2 with hy2 | hy2
            · have e : decide (1 ≤ y) = false := by simp; omega
              simp [e]
            · have e : decide (y ≤ 9999) = false := by simp; omega
              simp [e]
          · rw [if_neg hy]
            have hy2 : ¬(y < 1 ∨ y > 9999) := fun hc => hy (by simpa using hc)
            have e1 : decide (1 ≤ y) = true := by simp; omega
            have e2 : decide (y ≤ 9999) = true := by simp; omega
            simp [pyDatetimeOk, e1, e2]

/-! ## Claim theorems -/

/-- A run in which every registered table is present and valid. -/
def envGood : Env := ⟨fun name =>
  if name == "table1_promises_vs_outcomes.csv" then
    ⟨true, [["section", "promise", "administration", "reality", "sources"],
            ["a", "b", "c", "d", "e"]]⟩
  else if name == "appendix_b_evidence_to_claim.csv" then
    ⟨true, [["domain", "claim_id", "claim_text", "test_type", "method", "sources", "notes"],
            ["x", "B-001", "t", "hoop", "m", "s", "n"]]⟩
  else if name == "appendix_c_indicators.csv" then
    ⟨true, [["indicator", "definition", "unit", "source_id", "frequency", "notes"],
            ["i", "d", "u", "", "annual", ""]]⟩
  else if name == "appendix_e_timelines.csv" then
    ⟨true, [["domain", "date", "event", "source_id"], ["x", "2024", "e", ""]]⟩
  else if name == "abbreviations.csv" then
    ⟨true, [["term", "expansion", "scope"], ["X", "ex", "Law"]]⟩
  else ⟨false, []⟩,
  false, [], false, ⟨false, [], []⟩⟩

/-- C1: in validate mode the process exit status is 0 iff the union of the
per-table error lists is empty (the error list of every registered table is
empty), regardless of how many warnings any table produced (the exit code
never consults the warning lists). -/
theorem claim_C1_exit_code (env : Env) (strict : Bool) :
    validate_all env strict = 0 ↔
    ∀ entry ∈ SCHEMAS,
      (validate_file entry.1 entry.2 (env.dataFiles entry.1) strict
        (load_provenance_ids env)).1 = [] := by
  unfold validate_all
  rw [foldl_exit (fun entry : String × Schema =>
    (validate_file entry.1 entry.2 (env.dataFiles entry.1) strict
      (load_provenance_ids env)).1) SCHEMAS 0]
  simp

/-- Witness for C1 at a concrete run in which every table validates. -/
theorem claim_C1_witness : validate_all envGood false = 0 :=
  (claim_C1_exit_code envGood false).mpr (by decide)

/-- C2: when the header (taken from the first row) lacks one or more
required columns, `validate_file` returns exactly one error, that error
names all of the missing required columns (joined in schema order), and
nothing else is reported for that table. -/
theorem claim_C2_missing_columns (name : String) (schema : Schema) (file : CsvFile)
    (strict : Bool) (prov_ids : List String)
    (hp : file.present = true)
    (hr : read_csv file.raw ≠ [])
    (hm : schema.required.filter
        (fun c => !((Row.keys ((read_csv file.raw).headD [])).contains c)) ≠ []) :
    validate_file name schema file strict prov_ids =
      (["missing required columns: " ++ String.intercalate ", "
          (schema.required.filter
            (fun c => !((Row.keys ((read_csv file.raw).headD [])).contains c)))], []) := by
  have hreq : require_columns (read_csv file.raw) schema.required
      = ["missing required columns: " ++ String.intercalate ", "
          (schema.required.filter
            (fun c => !((Row.keys ((read_csv file.raw).headD [])).contains c)))] := by
    unfold require_columns
    simp only [if_neg hr, if_neg hm]
  have hp2 : ¬ file.present = false := by simp [hp]
  unfold validate_file
  simp only [if_neg hp2, if_neg hr, hreq]
  rw [if_neg (by simp)]

/-- Witness for C2: a table1 file whose header has only `section`. -/
theorem claim_C2_witness :
    validate_file "table1_promises_vs_outcomes.csv" schema_table1
      ⟨true, [["section"], ["x"]]⟩ false []
      = (["missing required columns: promise, administration, reality, sources"], []) := by
  have h := claim_C2_missing_columns "table1_promises_vs_outcomes.csv" schema_table1
    ⟨true, [["section"], ["x"]]⟩ false [] (by decide) (by decide) (by decide)
  exact h.trans (by decide)

/-- C4: identifier format violations and duplicates are two separate
errors over the non-empty values: `["A-001","A-002","A-001"]` against
`^A-\d3$` gives exactly one duplicate-values error containing
`"A-001"` and no format error, while `["A-001","A-99"]` gives one
format-violation error listing `"A-99"` only. -/
theorem claim_C4_identifier_checks :
    validate_file "t" ⟨[], some "id", some ⟨"A-", 3, "^A-\\d3$"⟩, [], none, [], none⟩
        ⟨true, [["id"], ["A-001"], ["A-002"], ["A-001"]]⟩ false []
      = (["id duplicate values: [\x27A-001\x27]"], [])
    ∧ validate_file "t" ⟨[], some "id", some ⟨"A-", 3, "^A-\\d3$"⟩, [], none, [], none⟩
        ⟨true, [["id"], ["A-001"], ["A-99"]]⟩ false []
      = (["id format violations (expected ^A-\\d3$): [\x27A-99\x27]"], []) := by
  constructor
  · decide
  · decide

/-- C5 counterexample: the claim says the validator accepts exactly the
strings of the year/year-month/year-month-day shape, but the source
strips the value first (line 87), so `" 2023"` — not of the shape — is
accepted. -/
theorem claim_C5_counterexample :
    ok_iso_date " 2023" = true ∧ specDateValid " 2023" = false := by
  constructor
  · decide
  · decide

/-- C5 (amended): the validator accepts exactly the strings whose
whitespace-trimmed form has the shape (year, year-month, or
year-month-day denoting a real calendar date with year 1-9999);
`"2023"`, `"2023-02"`, `"2023-02-28"` are valid, `"2023-02-30"` and
`"2023-13"` are invalid, and both invalid values appear in the single
combined error for the date column. -/
theorem claim_C5_date_validation :
    (∀ v : String, ok_iso_date v = specDateValid (pyStrip v))
    ∧ ok_iso_date "2023" = true
    ∧ ok_iso_date "2023-02" = true
    ∧ ok_iso_date "2023-02-28" = true
    ∧ ok_iso_date "2023-02-30" = false
    ∧ ok_iso_date "2023-13" = false
    ∧ validate_file "t" ⟨[], none, none, [], some "date", [], none⟩
        ⟨true, [["date"], ["2023"], ["2023-02"], ["2023-02-28"], ["2023-02-30"], ["2023-13"]]⟩
        false []
      = (["date: invalid ISO date(s) (YYYY[-MM[-DD]]): [\x272023-02-30\x27, \x272023-13\x27]"], []) := by
  refine ⟨ok_iso_date_eq_spec, ?_⟩
  decide

theorem crossRefMsgs_nil (name : String) (headers : List String) (rows : List Row) :
    crossRefMsgs name headers rows [] = [] := by
  unfold crossRefMsgs
  simp

/-- C3: for a table with a designated `source_id` column and a non-empty
Identifier Index, a non-empty `source_id` value absent from the index
yields exactly one cross-reference finding, with identical text in both
modes, appended to the errors under strict mode and to the warnings
otherwise; and with an empty Identifier Index no cross-reference finding
is produced in either mode (the two modes give identical results). -/
theorem claim_C3_crossref_severity :
    (∀ (name : String) (schema : Schema) (file : CsvFile) (prov_ids : List String),
      (name = "appendix_c_indicators.csv" ∨ name = "appendix_e_timelines.csv") →
      prov_ids ≠ [] →
      file.present = true →
      read_csv file.raw ≠ [] →
      require_columns (read_csv file.raw) schema.required = [] →
      (Row.keys ((read_csv file.raw).headD [])).contains "source_id" = true →
      (∃ r ∈ read_csv file.raw,
        pyStrip ((Row.get r "source_id").getD "") ≠ "" ∧
        prov_ids.contains (pyStrip ((Row.get r "source_id").getD "")) = false) →
      ∃ msg,
        crossRefMsgs name (Row.keys ((read_csv file.raw).headD []))
          (read_csv file.raw) prov_ids = [msg]
        ∧ (validate_file name schema file true prov_ids).1
            = (validate_file name schema file false prov_ids).1 ++ [msg]
        ∧ (validate_file name schema file false prov_ids).2
            = msg :: (validate_file name schema file true prov_ids).2)
    ∧ (∀ (name : String) (schema : Schema) (file : CsvFile),
        crossRefMsgs name (Row.keys ((read_csv file.raw).headD []))
          (read_csv file.raw) [] = []
        ∧ validate_file name schema file true [] = validate_file name schema file false []) := by
  constructor
  · intro name schema file prov_ids h1 h2 h3 h4 h5 h6 hex
    obtain ⟨r, hr, hv, hnc⟩ := hex
    have hmiss : crossMissing (read_csv file.raw) prov_ids ≠ [] := by
      unfold crossMissing
      apply sortStr_ne_nil
      apply toSet_ne_nil _ (pyStrip ((Row.get r "source_id").getD ""))
      refine List.mem_filterMap.mpr ⟨r, hr, ?_⟩
      have hnc2 : pyStrip ((Row.get r "source_id").getD "") ∉ prov_ids := by
        simpa using hnc
      have hc : ((pyStrip ((Row.get r "source_id").getD "") != "")
          && !(prov_ids.contains (pyStrip ((Row.get r "source_id").getD "")))) = true := by
        simp [hv, hnc2]
      simp only [hc]
      rfl
    have hcross : crossRefMsgs name (Row.keys ((read_csv file.raw).headD []))
        (read_csv file.raw) prov_ids
        = ["source_id: " ++ toString (crossMissing (read_csv file.raw) prov_ids).length
            ++ " value(s) not found in provenance sources: "
            ++ trunc (crossMissing (read_csv file.raw) prov_ids)] := by
      unfold crossRefMsgs
      have c1 : ((name == "appendix_c_indicators.csv"
          || name == "appendix_e_timelines.csv") && !(prov_ids = [])) = true := by
        rcases h1 with h1 | h1 <;> subst h1 <;> simp [h2]
      rw [if_pos c1, if_pos h6]
      dsimp only
      rw [if_neg hmiss]
    have habbrev : ∀ (hd : List String) (rows2 : List Row),
        abbrevBlockWarnings name schema hd rows2 = [] := by
      intro hd rows2
      rcases h1 with h1 | h1 <;> subst h1 <;> rfl
    have hp2 : ¬ file.present = false := by simp [h3]
    have hmain : ∀ b : Bool, validate_file name schema file b prov_ids
        = mainChecks name schema (read_csv file.raw) b prov_ids := by
      intro b
      unfold validate_file
      dsimp only
      rw [if_neg hp2, if_neg h4, h5]
      exact if_pos rfl
    refine ⟨_, hcross, ?_, ?_⟩
    · simp only [hmain]
      unfold mainChecks
      dsimp only
      rw [hcross]
      simp
    · simp only [hmain]
      unfold mainChecks
      dsimp only
      rw [hcross]
      simp [habbrev]
  · intro name schema file
    refine ⟨crossRefMsgs_nil _ _ _, ?_⟩
    unfold validate_file
    dsimp only
    split
    · rfl
    · split
      · rfl
      · split
        · unfold mainChecks
          simp [crossRefMsgs_nil]
        · rfl

/-- Witness for C3 at a concrete indicators table with one dangling
`source_id` value. -/
theorem claim_C3_witness :
    ∃ msg,
      crossRefMsgs "appendix_c_indicators.csv"
        (Row.keys ((read_csv [["source_id"], ["X-1"]]).headD []))
        (read_csv [["source_id"], ["X-1"]]) ["S-1"] = [msg]
      ∧ (validate_file "appendix_c_indicators.csv" ⟨[], none, none, [], none, [], none⟩
            ⟨true, [["source_id"], ["X-1"]]⟩ true ["S-1"]).1
          = (validate_file "appendix_c_indicators.csv" ⟨[], none, none, [], none, [], none⟩
              ⟨true, [["source_id"], ["X-1"]]⟩ false ["S-1"]).1 ++ [msg]
      ∧ (validate_file "appendix_c_indicators.csv" ⟨[], none, none, [], none, [], none⟩
            ⟨true, [["source_id"], ["X-1"]]⟩ false ["S-1"]).2
          = msg :: (validate_file "appendix_c_indicators.csv" ⟨[], none, none, [], none, [], none⟩
              ⟨true, [["source_id"], ["X-1"]]⟩ true ["S-1"]).2 :=
  claim_C3_crossref_severity.1 "appendix_c_indicators.csv"
    ⟨[], none, none, [], none, [], none⟩ ⟨true, [["source_id"], ["X-1"]]⟩ ["S-1"]
    (Or.inl rfl) (by decide) (by decide) (by decide) (by decide) (by decide) (by decide)

/-- C6 counterexample: the claim says the hygiene stage inspects the
*original* cell value, but `validate_file` re-checks the values stored in
the records, which `read_csv` has already stripped (line 64).  At a file
whose raw cell `"x "` carries trailing whitespace, the claim predicts a
hygiene warning naming row 2, column `a`; the code returns no finding at
all. -/
theorem claim_C6_counterexample :
    pyStrip "x " ≠ "x "
    ∧ validate_file "t" ⟨[], none, none, [], none, [], none⟩
        ⟨true, [["a"], ["x "]]⟩ false [] = ([], [])
    ∧ validate_file "t" ⟨[], none, none, [], none, [], none⟩
        ⟨true, [["a"], ["x "]]⟩ true [] = ([], []) := by
  refine ⟨by decide, by decide, by decide⟩

/-- C6 (amended): the hygiene stage scans the *stored* record values cell
by cell — rows numbered 1-based with the header as row 1, so data rows
start at 2 — collecting the `(row, column)` pairs of offending cells in
scan order and stopping at 10 (`hygieneScan` is exactly the first 10
entries of the full offender list); it only ever feeds the single
combined warning, never an error; and because the reader strips every
stored value, on reader-produced rows the scan finds nothing and the
warning never fires in either mode. -/
theorem claim_C6_hygiene (rows : List Row) (raw : List (List String)) :
    hygieneScan rows = (hygieneOffenders rows).take 10
    ∧ hygieneScan (read_csv raw) = []
    ∧ hygieneBlockWarnings (read_csv raw) = [] :=
  ⟨hygieneScan_eq_take rows, hygieneScan_read_csv raw, hygieneBlockWarnings_read_csv raw⟩

/-- 15 distinct duplicated identifier values (each appears twice). -/
def dupRaw15 : List (List String) := [["id"],
   ["D-001"], ["D-001"],["D-002"], ["D-002"],["D-003"], ["D-003"],
   ["D-004"], ["D-004"],["D-005"], ["D-005"],["D-006"], ["D-006"],
   ["D-007"], ["D-007"],["D-008"], ["D-008"],["D-009"], ["D-009"],
   ["D-010"], ["D-010"],["D-011"], ["D-011"],["D-012"], ["D-012"],
   ["D-013"], ["D-013"],["D-014"], ["D-014"],["D-015"], ["D-015"]]

set_option maxRecDepth 4000 in
/-- C7: the first-10-plus-ellipsis truncation, checked end to end on each
list-producing finding: 15 distinct duplicated identifiers render as the
first 10 in sort order followed by `...`, and 11-element offender lists
for format violations, enums, dates and cross-references each render as
their first 10 followed by `...`. -/
theorem claim_C7_truncation :
    validate_file "t" ⟨[], some "id", some ⟨"D-", 3, "^D-\\d{3}$"⟩, [], none, [], none⟩
        ⟨true, dupRaw15⟩ false []
      = (["id duplicate values: [\x27D-001\x27, \x27D-002\x27, \x27D-003\x27, \x27D-004\x27, \x27D-005\x27, \x27D-006\x27, \x27D-007\x27, \x27D-008\x27, \x27D-009\x27, \x27D-010\x27]..."], [])
    ∧ validate_file "t" ⟨[], some "id", some ⟨"B-", 3, "^B-\\d{3}$"⟩, [], none, [], none⟩
        ⟨true, [["id"], ["B-01"], ["B-02"], ["B-03"], ["B-04"], ["B-05"], ["B-06"], ["B-07"], ["B-08"], ["B-09"], ["B-10"], ["B-11"]]⟩ false []
      = (["id format violations (expected ^B-\\d{3}$): [\x27B-01\x27, \x27B-02\x27, \x27B-03\x27, \x27B-04\x27, \x27B-05\x27, \x27B-06\x27, \x27B-07\x27, \x27B-08\x27, \x27B-09\x27, \x27B-10\x27]..."], [])
    ∧ validate_file "t" ⟨[], none, none, [("t", ["x"])], none, [], none⟩
        ⟨true, [["t"], ["v01"], ["v02"], ["v03"], ["v04"], ["v05"], ["v06"], ["v07"], ["v08"], ["v09"], ["v10"], ["v11"]]⟩ false []
      = (["t: 11 value(s) not in [\x27x\x27] — [\x27v01\x27, \x27v02\x27, \x27v03\x27, \x27v04\x27, \x27v05\x27, \x27v06\x27, \x27v07\x27, \x27v08\x27, \x27v09\x27, \x27v10\x27]..."], [])
    ∧ validate_file "t" ⟨[], none, none, [], some "date", [], none⟩
        ⟨true, [["date"], ["2023-21"], ["2023-22"], ["2023-23"], ["2023-24"], ["2023-25"], ["2023-26"], ["2023-27"], ["2023-28"], ["2023-29"], ["2023-30"], ["2023-31"]]⟩ false []
      = (["date: invalid ISO date(s) (YYYY[-MM[-DD]]): [\x272023-21\x27, \x272023-22\x27, \x272023-23\x27, \x272023-24\x27, \x272023-25\x27, \x272023-26\x27, \x272023-27\x27, \x272023-28\x27, \x272023-29\x27, \x272023-30\x27]..."], [])
    ∧ validate_file "appendix_c_indicators.csv" schema_appendix_c
        ⟨true, [["indicator", "definition", "unit", "source_id", "frequency", "notes"],
   ["", "", "", "X-01", "", ""],
   ["", "", "", "X-02", "", ""],
   ["", "", "", "X-03", "", ""],
   ["", "", "", "X-04", "", ""],
   ["", "", "", "X-05", "", ""],
   ["", "", "", "X-06", "", ""],
   ["", "", "", "X-07", "", ""],
   ["", "", "", "X-08", "", ""],
   ["", "", "", "X-09", "", ""],
   ["", "", "", "X-10", "", ""],
   ["", "", "", "X-11", "", ""]]⟩ false ["S-1"]
      = ([], ["source_id: 11 value(s) not found in provenance sources: [\x27X-01\x27, \x27X-02\x27, \x27X-03\x27, \x27X-04\x27, \x27X-05\x27, \x27X-06\x27, \x27X-07\x27, \x27X-08\x27, \x27X-09\x27, \x27X-10\x27]..."]) := by
  refine ⟨by decide, by decide, by decide, by decide, by decide⟩

/-- C8: the Identifier Index builder is total — when the primary CSV
exists, the `source_id` column is preferred over `id` and membership in
the index is exactly the non-empty stripped `source_id` values of the rows;
when only the spreadsheet exists and reading it fails, the failure is
swallowed and the index is empty; when neither source exists the index
is empty. -/
theorem claim_C8_provenance (env : Env) :
    (env.csvPresent = true → read_csv env.csvRaw ≠ [] →
      (Row.keys ((read_csv env.csvRaw).headD [])).contains "source_id" = true →
      ∀ w, w ∈ load_provenance_ids env ↔
        (w ≠ "" ∧ ∃ r ∈ read_csv env.csvRaw,
          pyStrip ((Row.get r "source_id").getD "") = w))
    ∧ (env.csvPresent = false → env.xlsxPresent = true → env.xlsx.readable = false →
        load_provenance_ids env = [])
    ∧ (env.csvPresent = false → env.xlsxPresent = false →
        load_provenance_ids env = []) := by
  refine ⟨?_, ?_, ?_⟩
  · intro h1 h2 h3 w
    have h3m : "source_id" ∈ Row.keys ((read_csv env.csvRaw).head?.getD []) := by
      simpa using h3
    have hload : load_provenance_ids env
        = (read_csv env.csvRaw).foldl (collectStep "source_id") [] := by
      unfold load_provenance_ids add_csv_ids
      simp [h1, h2, h3m]
    rw [hload, mem_collect]
    simp
  · intro h1 h2 h3
    unfold load_provenance_ids
    simp [h1, h2, h3]
  · intro h1 h2
    unfold load_provenance_ids
    simp [h1, h2]

/-- A run whose provenance CSV exists (with both `source_id` and `id`
columns), one with an unreadable spreadsheet only, and one with no
provenance source at all. -/
def envCsvProv : Env :=
  ⟨fun _ => ⟨false, []⟩, true,
   [["source_id", "id"], [" S-1 ", "x"], ["", "y"]], false, ⟨false, [], []⟩⟩

def envXlsxBad : Env :=
  ⟨fun _ => ⟨false, []⟩, false, [], true, ⟨false, [some "source_id"], [[some "S-9"]]⟩⟩

def envNoProv : Env :=
  ⟨fun _ => ⟨false, []⟩, false, [], false, ⟨false, [], []⟩⟩

/-- Witness for C8 on the three concrete environments. -/
theorem claim_C8_witness :
    ("S-1" ∈ load_provenance_ids envCsvProv)
    ∧ load_provenance_ids envXlsxBad = []
    ∧ load_provenance_ids envNoProv = [] := by
  refine ⟨((claim_C8_provenance envCsvProv).1 (by decide) (by decide) (by decide)
      "S-1").mpr (by decide),
    (claim_C8_provenance envXlsxBad).2.1 (by decide) (by decide) (by decide),
    (claim_C8_provenance envNoProv).2.2 (by decide) (by decide)⟩

/-- C9: every record produced by the reader has the same key list — the
header of the table after cleanup, deduplicated the way a Python dict
deduplicates repeated insertions — and a cell whose header position lies
beyond the end of a short raw row is materialized as the empty string. -/
theorem claim_C9_reader_invariant (hdrs : List String) (rest : List (List String)) :
    (∀ r ∈ read_csv (hdrs :: rest), Row.keys r = dedupKeys (hdrs.map cleanHeader))
    ∧ (∀ x ∈ rest, ∀ i, x.length ≤ i → ∀ hi : i < (hdrs.map cleanHeader).length,
        (buildRow (hdrs.map cleanHeader) x).get ((hdrs.map cleanHeader).get ⟨i, hi⟩)
          = some "") := by
  constructor
  · intro r hr
    simp only [read_csv, List.mem_map] at hr
    obtain ⟨x, -, hx⟩ := hr
    rw [← hx]
    exact keys_buildRow _ x
  · intro x hx i hlen hi
    unfold buildRow
    rw [show (hdrs.map cleanHeader).enum = (hdrs.map cleanHeader).enumFrom 0 from rfl]
    exact get_fold_set_end x (hdrs.map cleanHeader) 0 [] _ ⟨i, hi, rfl, by omega⟩

/-- Witness for C9: a two-column header with a one-cell raw row. -/
theorem claim_C9_witness :
    Row.keys (buildRow (["a", "b"].map cleanHeader) ["1"])
      = dedupKeys (["a", "b"].map cleanHeader)
    ∧ (buildRow (["a", "b"].map cleanHeader) ["1"]).get
        ((["a", "b"].map cleanHeader).get ⟨1, by decide⟩) = some "" := by
  constructor
  · exact (claim_C9_reader_invariant ["a", "b"] [["1"]]).1
      (buildRow (["a", "b"].map cleanHeader) ["1"]) (by decide)
  · exact (claim_C9_reader_invariant ["a", "b"] [["1"]]).2 ["1"] (by decide) 1
      (by decide) (by decide)

/-- C10: on reader-produced tables the hygiene branch is unreachable —
the reader strips every header name and every cell value, so every
stored cell is a fixed point of `strip()`, the hygiene scan returns no
offenders, and `validate_file` never renders the trailing-whitespace
warning. -/
theorem claim_C10_hygiene_unreachable (raw : List (List String)) :
    (∀ r ∈ read_csv raw, ∀ kv ∈ r, pyStrip kv.1 = kv.1 ∧ pyStrip kv.2 = kv.2)
    ∧ hygieneScan (read_csv raw) = []
    ∧ hygieneBlockWarnings (read_csv raw) = [] :=
  ⟨read_csv_strip raw, hygieneScan_read_csv raw, hygieneBlockWarnings_read_csv raw⟩

/-- Witness for C10 at a file whose raw cell has trailing whitespace. -/
theorem claim_C10_witness :
    (pyStrip "b" = "b" ∧ pyStrip "a" = "a")
    ∧ hygieneScan (read_csv [["a"], ["b "]]) = [] := by
  constructor
  · have h := (claim_C10_hygiene_unreachable [["a"], ["b "]]).1
      (buildRow (["a"].map cleanHeader) ["b "]) (by decide) ("a", "b") (by decide)
    exact ⟨h.2, h.1⟩
  · exact (claim_C10_hygiene_unreachable [["a"], ["b "]]).2.1
